import Mathlib

/-!
# Verification of the profile-handler timer/signal coordination engine

A shallow embedding of `src/profile-handler.cc` (gperftools profile handler):
the callback registry, the timer-sharing detection state machine of
`TimerProfileEventSource`, and the signal dispatcher, together with proofs of
the specified invariants and functional-correctness properties.

Modelling conventions:
* A `ProfileHandlerToken*` is modelled by a `ProfileHandlerToken` record whose
  `id` field models the pointer value (pointer equality = `id` equality;
  `RegisterCallback` always allocates a fresh pointer, modelled by the
  `nextToken` counter).  `callback` / `callback_arg` are opaque payloads,
  modelled as naturals.
* Calls to the OS (`setitimer` / timer start-stop) are modelled as an explicit
  trace of `TimerAction`s emitted by each operation; a `Bool` field `timer`
  in the handler state records the resulting on/off state of the process
  interval timer.  `IsTimerRunning` is an observation of that OS state: in the
  event-source function it is a free `Bool` input, and in the whole-system
  step semantics it reads the `timer` field (the semantics of an OS whose
  interval timer is process-shared, which is the world in which the
  `TIMERS_SHARED` detection outcome arises).
* `int32` / `int64` counters are modelled as `Int` (no operation here brings
  them anywhere near overflow), `uint32_t` tick counts as `Nat`.
* `RAW_LOG(FATAL, ...)` / failed `RAW_CHECK`s terminate the process; a
  fallible operation returns an `UnregResult` that carries either the new
  state or the fatal diagnostic together with the state at termination.
-/

namespace ProfileHandlerModel

/-- The four values of `TimerProfileEventSource::timer_sharing_`
(`profile-handler.cc`, lines 166-175). -/
inductive TimerSharing where
  | TIMERS_UNTOUCHED
  | TIMERS_ONE_SET
  | TIMERS_SHARED
  | TIMERS_SEPARATE
deriving DecidableEq, Repr

/-- An OS interval-timer side effect: `StartTimer()` or `StopTimer()`
(`profile-handler.cc`, lines 491-503). -/
inductive TimerAction where
  | start
  | stop
deriving DecidableEq, Repr

/-- Effect of one timer action on the on/off state of the interval timer. -/
def applyAction (_running : Bool) : TimerAction → Bool
  | .start => true
  | .stop => false

/-- Effect of a trace of timer actions on the interval timer. -/
def applyActions (running : Bool) (acts : List TimerAction) : Bool :=
  acts.foldl applyAction running

/-- `TimerProfileEventSource::RegisterThread` (`profile-handler.cc`,
lines 356-398): the sharing-detection state machine.  `isTimerRunning` is the
result of the `IsTimerRunning()` OS query made in the `TIMERS_ONE_SET` case;
the result is the new `timer_sharing_` value and the trace of timer
start/stop calls performed. -/
def esRegisterThread (timer_sharing : TimerSharing) (isTimerRunning : Bool)
    (callback_count : Int) : TimerSharing × List TimerAction :=
  match timer_sharing with
  | .TIMERS_UNTOUCHED => (.TIMERS_ONE_SET, [.start])
  | .TIMERS_ONE_SET =>
      if isTimerRunning then
        (.TIMERS_SHARED, if callback_count = 0 then [.stop] else [])
      else
        (.TIMERS_SEPARATE, [.start])
  | .TIMERS_SHARED => (.TIMERS_SHARED, [])
  | .TIMERS_SEPARATE => (.TIMERS_SEPARATE, [.start])

/-- `TimerProfileEventSource::RegisteredCallback` (`profile-handler.cc`,
lines 416-421): start the timer iff this is the first callback and timers are
shared.  Does not touch `timer_sharing_`. -/
def esRegisteredCallback (timer_sharing : TimerSharing)
    (new_callback_count : Int) : List TimerAction :=
  if new_callback_count = 1 ∧ timer_sharing = .TIMERS_SHARED then [.start] else []

/-- `TimerProfileEventSource::UnregisteredCallback` (`profile-handler.cc`,
lines 447-451): stop the timer iff no callback remains and timers are shared.
Does not touch `timer_sharing_`. -/
def esUnregisteredCallback (timer_sharing : TimerSharing)
    (new_callback_count : Int) : List TimerAction :=
  if new_callback_count = 0 ∧ timer_sharing = .TIMERS_SHARED then [.stop] else []

/-- `TimerProfileEventSource::Reset` (`profile-handler.cc`, lines 470-475):
stop the timer when shared, and return to `TIMERS_UNTOUCHED`. -/
def esReset (timer_sharing : TimerSharing) : TimerSharing × List TimerAction :=
  (.TIMERS_UNTOUCHED, if timer_sharing = .TIMERS_SHARED then [.stop] else [])

/-- `struct ProfileHandlerToken` (`profile-handler.cc`, lines 58-69).
`id` models the token's pointer value; `callback` and `callback_arg` are the
opaque payload set at construction. -/
structure ProfileHandlerToken where
  id : Nat
  callback : Nat
  callback_arg : Nat
deriving DecidableEq, Repr

/-- The mutable state of the `ProfileHandler` singleton together with the
modelled OS state (`timer`: whether the interval timer is set, `handlerEnabled`:
whether the signal disposition is the dispatching handler rather than
`SIG_IGN`) and the fresh-pointer counter `nextToken`. -/
structure HandlerState where
  callbacks : List ProfileHandlerToken
  callback_count : Int
  interrupts : Int
  frequency : Nat
  timer_sharing : TimerSharing
  timer : Bool
  handlerEnabled : Bool
  nextToken : Nat
deriving DecidableEq, Repr

/-- The C `isspace` characters that the `%u` conversion of `sscanf` skips
before the number. -/
def isCSpace (c : Char) : Bool :=
  c == ' ' || c == '\t' || c == '\n' || c == '\x0b' || c == '\x0c' || c == '\r'

/-- Value of a run of decimal digits (the `%u` accumulation). -/
def digitsToNat (ds : List Char) : Nat :=
  ds.foldl (fun acc c => acc * 10 + (c.toNat - 48)) 0

/-- Models `sscanf(fr, "%u%c", &frequency_, &junk) == 1` together with the
store of the converted value into the 32-bit `frequency_` slot
(`profile-handler.cc`, lines 332-335).  `%u` skips leading C whitespace,
accepts an optional `+` or `-` sign, and converts a nonempty digit run with
`strtoul` semantics (glibc: wraparound negation for `-`, clamp to
`ULONG_MAX = 2^64 - 1` on overflow; ISO C leaves conversions whose result is
unrepresentable undefined); the whole match succeeds only when nothing
follows the number, since a trailing character would be consumed by `%c` and
make `sscanf` return 2.  The returned value is the converted number reduced
modulo `2^32 = 4294967296`: the unsigned 32-bit pattern stored into
`frequency_`. -/
def scanFrequency? (s : String) : Option Nat :=
  let cs := s.data.dropWhile isCSpace
  let sign : Bool × List Char :=
    match cs with
    | '+' :: rest => (false, rest)
    | '-' :: rest => (true, rest)
    | rest => (false, rest)
  let ds := sign.2
  if ds ≠ [] ∧ ds.all (fun c => c.isDigit) then
    let v := digitsToNat ds
    if v < 18446744073709551616 then
      if sign.1 then some ((4294967296 - v % 4294967296) % 4294967296)
      else some (v % 4294967296)
    else some 4294967295
  else none

/-- Reading of the stored unsigned 32-bit pattern as the signed
`int32 frequency_` (`profile-handler.cc`, line 249) used in the
`frequency_ > 0` test: patterns at or above `2^31 = 2147483648` are
negative. -/
def toInt32 (w : Nat) : Int :=
  if w < 2147483648 then (w : Int) else (w : Int) - 4294967296

/-- The frequency computation of `ProfileHandler::ProfileHandler`
(`profile-handler.cc`, lines 331-340): when `sscanf` accepts the override
and the stored `int32` value is positive, it is clamped to
`kMaxFrequency = 4000`; otherwise `kDefaultFrequency = 100`.  A positive
`int32` pattern is below `2^31`, so the clamp is `min` on the stored
value. -/
def effectiveFrequency (env : Option String) : Nat :=
  match env with
  | none => 100
  | some fr =>
    match scanFrequency? fr with
    | some w => if 0 < toInt32 w then min w 4000 else 100
    | none => 100

/-- `ProfileHandler::ProfileHandler` (`profile-handler.cc`, lines 323-345):
zero interrupts and callbacks, frequency from the `CPUPROFILE_FREQUENCY`
environment value, handler disabled; the event source starts in
`TIMERS_UNTOUCHED` with the OS timer not set. -/
def initState (env : Option String) : HandlerState :=
  { callbacks := []
    callback_count := 0
    interrupts := 0
    frequency := effectiveFrequency env
    timer_sharing := .TIMERS_UNTOUCHED
    timer := false
    handlerEnabled := false
    nextToken := 0 }

/-- `ProfileHandler::RegisterThread` (`profile-handler.cc`, lines 351-354)
with the timer event source: forwards the current callback count to
`esRegisterThread` and applies the emitted timer actions.  `isTimerRunning` is
the OS observation made in the `TIMERS_ONE_SET` case. -/
def registerThread (s : HandlerState) (isTimerRunning : Bool) : HandlerState :=
  let r := esRegisterThread s.timer_sharing isTimerRunning s.callback_count
  { s with timer_sharing := r.1, timer := applyActions s.timer r.2 }

/-- `ProfileHandler::RegisterCallback` (`profile-handler.cc`, lines 400-414):
allocate a fresh token, disable the handler, append the token to the registry,
increment the count, notify the event source with the new count, re-enable the
handler, and return the token. -/
def registerCallback (s : HandlerState) (cb cb_arg : Nat) :
    HandlerState × ProfileHandlerToken :=
  let token : ProfileHandlerToken :=
    { id := s.nextToken, callback := cb, callback_arg := cb_arg }
  let cnt := s.callback_count + 1
  let acts := esRegisteredCallback s.timer_sharing cnt
  ({ s with callbacks := s.callbacks ++ [token]
            callback_count := cnt
            timer := applyActions s.timer acts
            handlerEnabled := true
            nextToken := s.nextToken + 1 }, token)

/-- `true` iff some registry entry has this pointer value: the search loop of
`ProfileHandler::UnregisterCallback` finds a match. -/
def containsTokenId (l : List ProfileHandlerToken) (i : Nat) : Bool :=
  l.any (fun x => x.id = i)

/-- `callbacks_.erase(it)` at the first entry whose pointer equals the given
token (`profile-handler.cc`, lines 425-434): remove the first id match. -/
def removeTokenById : List ProfileHandlerToken → Nat → List ProfileHandlerToken
  | [], _ => []
  | x :: xs, i => if x.id = i then xs else x :: removeTokenById xs i

/-- Result of a fallible operation: either the new state, or process
termination with a diagnostic (`RAW_LOG(FATAL, ...)` / failed `RAW_CHECK`),
carrying the state at the moment of termination. -/
inductive UnregResult where
  | ok (s : HandlerState)
  | fatal (msg : String) (s : HandlerState)
deriving DecidableEq, Repr

/-- `ProfileHandler::UnregisterCallback` (`profile-handler.cc`,
lines 423-445): find the entry whose pointer equals `token`; if found, check
`callback_count_ > 0`, disable the handler, erase the entry, decrement the
count, re-enable the handler only if callbacks remain, and notify the event
source; if no entry matches, `RAW_LOG(FATAL, "Invalid token")`. -/
def unregisterCallback (s : HandlerState) (token : ProfileHandlerToken) :
    UnregResult :=
  if containsTokenId s.callbacks token.id then
    if 0 < s.callback_count then
      let cnt := s.callback_count - 1
      let acts := esUnregisteredCallback s.timer_sharing cnt
      .ok { s with callbacks := removeTokenById s.callbacks token.id
                   callback_count := cnt
                   handlerEnabled := decide (0 < cnt)
                   timer := applyActions s.timer acts }
    else .fatal "Invalid callback count" s
  else .fatal "Invalid token" s

/-- `ProfileHandler::Reset` (`profile-handler.cc`, lines 453-468): disable the
handler, delete every registry entry, zero the count, and reset the event
source (which stops the timer when shared and returns to
`TIMERS_UNTOUCHED`). -/
def reset (s : HandlerState) : HandlerState :=
  let r := esReset s.timer_sharing
  { s with callbacks := []
           callback_count := 0
           handlerEnabled := false
           timer_sharing := r.1
           timer := applyActions s.timer r.2 }

/-- The snapshot returned by `ProfileHandler::GetState`
(`profile-handler.cc`, lines 477-489). -/
structure ProfileHandlerStateSnapshot where
  interrupts : Int
  frequency : Nat
  callback_count : Int
deriving DecidableEq, Repr

/-- `ProfileHandler::GetState` (`profile-handler.cc`, lines 477-489): disable
the handler, read the interrupt count, re-enable the handler iff callbacks
remain, and return the snapshot. -/
def getState (s : HandlerState) : HandlerState × ProfileHandlerStateSnapshot :=
  ({ s with handlerEnabled := decide (0 < s.callback_count) },
   { interrupts := s.interrupts
     frequency := s.frequency
     callback_count := s.callback_count })

/-- One callback invocation performed by the dispatcher:
`(*it)->callback(sig, sinfo, ucontext, ticks, (*it)->callback_arg)`; the
signal identity / metadata / context arguments are ambient and not part of the
registry state, so the record keeps the per-entry data. -/
structure Invocation where
  callback : Nat
  ticks : Nat
  callback_arg : Nat
deriving DecidableEq, Repr

/-- `ProfileHandler::SignalHandler` (`profile-handler.cc`, lines 534-552):
read the tick count from the event source, increment `interrupts_`
unconditionally, and when the tick count is nonzero invoke every registered
callback in registry order.  Returns the new state and the invocation list. -/
def signalHandler (s : HandlerState) (ticks : Nat) :
    HandlerState × List Invocation :=
  ({ s with interrupts := s.interrupts + 1 },
   if ticks ≠ 0 then
     s.callbacks.map (fun t =>
       { callback := t.callback, ticks := ticks, callback_arg := t.callback_arg })
   else [])

/-- `TimerProfileEventSource::StartTimer` builds this `itimerval`
(`profile-handler.cc`, lines 491-497): seconds zero, microseconds
`1000000 / frequency`, and `it_value` copied from `it_interval`. -/
structure Itimerval where
  it_interval_sec : Nat
  it_interval_usec : Nat
  it_value_sec : Nat
  it_value_usec : Nat
deriving DecidableEq, Repr

/-- The `itimerval` passed to `setitimer` by `StartTimer()`
(`profile-handler.cc`, lines 491-497). -/
def startTimerValue (frequency : Nat) : Itimerval :=
  { it_interval_sec := 0
    it_interval_usec := 1000000 / frequency
    it_value_sec := 0
    it_value_usec := 1000000 / frequency }

/-- The zeroed `itimerval` passed to `setitimer` by `StopTimer()`
(`profile-handler.cc`, lines 499-503). -/
def stopTimerValue : Itimerval :=
  { it_interval_sec := 0, it_interval_usec := 0
    it_value_sec := 0, it_value_usec := 0 }

/-- A public operation on the handler.  `registerThreadOp` carries no
observation: in the step semantics the `IsTimerRunning()` query reads the
modelled process-shared timer.  `signalOp` carries the tick count reported by
`GetTicksSinceLastCall()`. -/
inductive Op where
  | registerThreadOp
  | registerCallbackOp (cb cb_arg : Nat)
  | unregisterCallbackOp (t : ProfileHandlerToken)
  | resetOp
  | getStateOp
  | signalOp (ticks : Nat)
deriving DecidableEq, Repr

/-- Whole-system small step: one public operation.  A fatal
`unregisterCallback` terminates the process, so the state at termination is
the final state of the run. -/
def step (s : HandlerState) : Op → HandlerState
  | .registerThreadOp => registerThread s s.timer
  | .registerCallbackOp cb cb_arg => (registerCallback s cb cb_arg).1
  | .unregisterCallbackOp t =>
      match unregisterCallback s t with
      | .ok s' => s'
      | .fatal _ sFinal => sFinal
  | .resetOp => reset s
  | .getStateOp => (getState s).1
  | .signalOp ticks => (signalHandler s ticks).1

/-- Run a sequence of public operations from a state. -/
def run (s : HandlerState) (ops : List Op) : HandlerState :=
  ops.foldl step s

/-- A concrete registered token, for evaluating the operations. -/
def exToken1 : ProfileHandlerToken := { id := 0, callback := 5, callback_arg := 6 }

/-- A concrete state with one registered callback and a detected shared,
running timer. -/
def exShared1 : HandlerState :=
  { callbacks := [exToken1]
    callback_count := 1
    interrupts := 3
    frequency := 100
    timer_sharing := .TIMERS_SHARED
    timer := true
    handlerEnabled := true
    nextToken := 1 }

/-- `exShared1` after unregistering its one callback. -/
def exShared0 : HandlerState :=
  { callbacks := []
    callback_count := 0
    interrupts := 3
    frequency := 100
    timer_sharing := .TIMERS_SHARED
    timer := false
    handlerEnabled := false
    nextToken := 1 }

/-- A token value that is not registered in `exShared1`. -/
def exTokenMissing : ProfileHandlerToken := { id := 99, callback := 1, callback_arg := 2 }

/-- A concrete state stuck in `TIMERS_ONE_SET` detection with one callback
and the first thread's timer running. -/
def exOneSet1 : HandlerState :=
  { callbacks := [exToken1]
    callback_count := 1
    interrupts := 0
    frequency := 100
    timer_sharing := .TIMERS_ONE_SET
    timer := true
    handlerEnabled := true
    nextToken := 1 }

/-- `exOneSet1` after unregistering its one callback: the timer stays set. -/
def exOneSet0 : HandlerState :=
  { callbacks := []
    callback_count := 0
    interrupts := 0
    frequency := 100
    timer_sharing := .TIMERS_ONE_SET
    timer := true
    handlerEnabled := false
    nextToken := 1 }

/-- Two thread registrations followed by one callback registration: the
detection scenario in which the timer is observed shared. -/
def exDetectOps : List Op :=
  [.registerThreadOp, .registerThreadOp, .registerCallbackOp 1 2]

/-- A post-`Reset` operation sequence containing no callback registration. -/
def exNoRegOps : List Op := [.getStateOp, .registerThreadOp, .signalOp 1]

/-- Well-formedness of a handler state, established at construction and
preserved by every public operation: the callback count equals the registry
length, registered token pointers are pairwise distinct and below the
fresh-pointer counter, and — once sharing is detected — the shared timer is
set iff a callback is registered. -/
def WF (s : HandlerState) : Prop :=
  s.callback_count = (s.callbacks.length : Int) ∧
  (s.callbacks.map ProfileHandlerToken.id).Nodup ∧
  (∀ t ∈ s.callbacks, t.id < s.nextToken) ∧
  (s.timer_sharing = .TIMERS_SHARED → (s.timer = true ↔ 0 < s.callback_count))

lemma containsTokenId_iff {l : List ProfileHandlerToken} {i : Nat} :
    containsTokenId l i = true ↔ ∃ x ∈ l, x.id = i := by
  simp [containsTokenId]

lemma removeTokenById_length {l : List ProfileHandlerToken} {i : Nat}
    (h : containsTokenId l i = true) :
    (removeTokenById l i).length + 1 = l.length := by
  induction l with
  | nil => simp [containsTokenId] at h
  | cons x xs ih =>
      by_cases hx : x.id = i
      · simp [removeTokenById, hx]
      · have hxs : containsTokenId xs i = true := by
          rcases containsTokenId_iff.mp h with ⟨y, hy, hyi⟩
          rcases List.mem_cons.mp hy with rfl | hy'
          · exact absurd hyi hx
          · exact containsTokenId_iff.mpr ⟨y, hy', hyi⟩
        simp [removeTokenById, hx, ih hxs]

lemma removeTokenById_sublist (l : List ProfileHandlerToken) (i : Nat) :
    List.Sublist (removeTokenById l i) l := by
  induction l with
  | nil => simp [removeTokenById]
  | cons x xs ih =>
      by_cases hx : x.id = i
      · simp [removeTokenById, hx]
      · simpa [removeTokenById, hx] using ih.cons₂ x

lemma removeTokenById_eq_filter {l : List ProfileHandlerToken} {i : Nat}
    (h : (l.map ProfileHandlerToken.id).Nodup) :
    removeTokenById l i = l.filter (fun x => x.id ≠ i) := by
  induction l with
  | nil => simp [removeTokenById]
  | cons x xs ih =>
      simp only [List.map_cons, List.nodup_cons] at h
      by_cases hx : x.id = i
      · have : ∀ y ∈ xs, y.id ≠ i := by
          intro y hy hyi
          exact h.1 (by simpa [hyi, hx] using List.mem_map_of_mem ProfileHandlerToken.id hy)
        rw [removeTokenById, if_pos hx, List.filter_cons_of_neg (by simpa using hx)]
        exact (List.filter_eq_self.mpr (fun y hy => by simpa using this y hy)).symm
      · rw [removeTokenById, if_neg hx, List.filter_cons_of_pos (by simpa using hx), ih h.2]

lemma applyActions_nil (t : Bool) : applyActions t [] = t := rfl

lemma applyActions_start (t : Bool) : applyActions t [.start] = true := rfl

lemma applyActions_stop (t : Bool) : applyActions t [.stop] = false := rfl

lemma registerCallback_fst (s : HandlerState) (cb cb_arg : Nat) :
    (registerCallback s cb cb_arg).1 =
      { s with callbacks := s.callbacks ++ [⟨s.nextToken, cb, cb_arg⟩]
               callback_count := s.callback_count + 1
               timer := applyActions s.timer
                 (esRegisteredCallback s.timer_sharing (s.callback_count + 1))
               handlerEnabled := true
               nextToken := s.nextToken + 1 } := rfl

lemma registerCallback_snd (s : HandlerState) (cb cb_arg : Nat) :
    (registerCallback s cb cb_arg).2 = ⟨s.nextToken, cb, cb_arg⟩ := rfl

lemma unregisterCallback_found {s : HandlerState} {t : ProfileHandlerToken}
    (hc : containsTokenId s.callbacks t.id = true) (hcnt : 0 < s.callback_count) :
    unregisterCallback s t =
      .ok { s with callbacks := removeTokenById s.callbacks t.id
                   callback_count := s.callback_count - 1
                   handlerEnabled := decide (0 < s.callback_count - 1)
                   timer := applyActions s.timer
                     (esUnregisteredCallback s.timer_sharing (s.callback_count - 1)) } := by
  simp [unregisterCallback, hc, hcnt]

lemma unregisterCallback_fatal_state {s : HandlerState} {t : ProfileHandlerToken}
    {msg : String} {s' : HandlerState}
    (h : unregisterCallback s t = .fatal msg s') : s' = s := by
  by_cases hc : containsTokenId s.callbacks t.id
  · by_cases hcnt : 0 < s.callback_count
    · simp [unregisterCallback, hc, hcnt] at h
    · simp [unregisterCallback, hc, hcnt] at h
      exact h.2.symm
  · simp [unregisterCallback, hc] at h
    exact h.2.symm

lemma wf_initState (env : Option String) : WF (initState env) := by
  simp [WF, initState]

lemma wf_registerThread {s : HandlerState} (h : WF s) :
    WF (registerThread s s.timer) := by
  obtain ⟨h1, h2, h3, h4⟩ := h
  refine ⟨h1, h2, h3, ?_⟩
  intro hsh
  have hlen : (0 : Int) ≤ (s.callbacks.length : Int) := Int.ofNat_nonneg _
  cases hs : s.timer_sharing
  · simp [registerThread, esRegisterThread, hs] at hsh
  · cases ht : s.timer
    · simp [registerThread, esRegisterThread, hs, ht] at hsh
    · by_cases hc : s.callback_count = 0
      · simp [registerThread, esRegisterThread, hs, ht, hc, applyActions, applyAction]
      · simp [registerThread, esRegisterThread, hs, ht, hc, applyActions]
        omega
  · simp only [registerThread, esRegisterThread, hs] at hsh ⊢
    simpa [applyActions] using h4 hs
  · simp [registerThread, esRegisterThread, hs] at hsh

lemma wf_registerCallback {s : HandlerState} (h : WF s) (cb cb_arg : Nat) :
    WF (registerCallback s cb cb_arg).1 := by
  obtain ⟨h1, h2, h3, h4⟩ := h
  rw [registerCallback_fst]
  refine ⟨?_, ?_, ?_, ?_⟩
  · show s.callback_count + 1 =
      (((s.callbacks ++
          [({ id := s.nextToken, callback := cb, callback_arg := cb_arg } :
            ProfileHandlerToken)]).length : Nat) : Int)
    simp only [List.length_append, List.length_singleton]
    omega
  · rw [List.map_append, List.nodup_append]
    refine ⟨h2, List.nodup_singleton _, ?_⟩
    intro a ha hb
    rcases List.mem_map.mp ha with ⟨u, hu, rfl⟩
    have := h3 u hu
    simp only [List.map_cons, List.map_nil, List.mem_singleton] at hb
    omega
  · intro u hu
    rcases List.mem_append.mp hu with hu' | hu'
    · exact Nat.lt_succ_of_lt (h3 u hu')
    · simp only [List.mem_singleton] at hu'
      subst hu'
      exact Nat.lt_succ_self _
  · intro hsh
    have hsh' : s.timer_sharing = TimerSharing.TIMERS_SHARED := hsh
    show applyActions s.timer
        (esRegisteredCallback s.timer_sharing (s.callback_count + 1)) = true ↔
      0 < s.callback_count + 1
    by_cases hc : s.callback_count + 1 = 1
    · simp [esRegisteredCallback, hc, hsh', applyActions, applyAction]
    · have hpos : 0 < s.callback_count := by omega
      have htrue := (h4 hsh').mpr hpos
      simp [esRegisteredCallback, hc, htrue, applyActions]
      omega

lemma wf_unregisterCallback_ok {s : HandlerState} {t : ProfileHandlerToken}
    {s' : HandlerState} (h : WF s) (hok : unregisterCallback s t = .ok s') :
    WF s' := by
  obtain ⟨h1, h2, h3, h4⟩ := h
  by_cases hc : containsTokenId s.callbacks t.id
  · by_cases hcnt : 0 < s.callback_count
    · rw [unregisterCallback_found hc hcnt] at hok
      cases hok
      have hlen := removeTokenById_length (l := s.callbacks) (i := t.id) hc
      refine ⟨?_, ?_, ?_, ?_⟩
      · show s.callback_count - 1 =
          (((removeTokenById s.callbacks t.id).length : Nat) : Int)
        omega
      · exact h2.sublist ((removeTokenById_sublist s.callbacks t.id).map _)
      · intro u hu
        exact h3 u ((removeTokenById_sublist s.callbacks t.id).subset hu)
      · intro hsh
        have hsh' : s.timer_sharing = TimerSharing.TIMERS_SHARED := hsh
        show applyActions s.timer
            (esUnregisteredCallback s.timer_sharing (s.callback_count - 1)) = true ↔
          0 < s.callback_count - 1
        by_cases hz : s.callback_count - 1 = 0
        · simp [esUnregisteredCallback, hz, hsh', applyActions, applyAction]
        · have htrue := (h4 hsh').mpr hcnt
          simp [esUnregisteredCallback, hz, htrue, applyActions]
          omega
    · simp [unregisterCallback, hc, hcnt] at hok
  · simp [unregisterCallback, hc] at hok

lemma wf_reset {s : HandlerState} : WF (reset s) := by
  refine ⟨by simp [reset], by simp [reset], by simp [reset], ?_⟩
  intro hsh
  simp [reset, esReset] at hsh

lemma wf_step {s : HandlerState} (h : WF s) (op : Op) : WF (step s op) := by
  cases op with
  | registerThreadOp => exact wf_registerThread h
  | registerCallbackOp cb cb_arg => exact wf_registerCallback h cb cb_arg
  | unregisterCallbackOp t =>
      simp only [step]
      cases hu : unregisterCallback s t with
      | ok s' => exact wf_unregisterCallback_ok h hu
      | fatal msg sFinal =>
          rw [unregisterCallback_fatal_state hu]
          exact h
  | resetOp => exact wf_reset
  | getStateOp => exact ⟨h.1, h.2.1, h.2.2.1, h.2.2.2⟩
  | signalOp ticks => exact ⟨h.1, h.2.1, h.2.2.1, h.2.2.2⟩

lemma wf_run {s : HandlerState} (h : WF s) (ops : List Op) : WF (run s ops) := by
  induction ops generalizing s with
  | nil => exact h
  | cons op ops ih => exact ih (wf_step h op)

lemma wf_run_init (env : Option String) (ops : List Op) :
    WF (run (initState env) ops) :=
  wf_run (wf_initState env) ops

lemma unregisterCallback_ok_elim {s : HandlerState} {t : ProfileHandlerToken}
    {s' : HandlerState} (h : unregisterCallback s t = .ok s') :
    containsTokenId s.callbacks t.id = true ∧ 0 < s.callback_count ∧
    s' = { s with callbacks := removeTokenById s.callbacks t.id
                  callback_count := s.callback_count - 1
                  handlerEnabled := decide (0 < s.callback_count - 1)
                  timer := applyActions s.timer
                    (esUnregisteredCallback s.timer_sharing (s.callback_count - 1)) } := by
  by_cases hc : containsTokenId s.callbacks t.id
  · by_cases hcnt : 0 < s.callback_count
    · rw [unregisterCallback_found hc hcnt] at h
      cases h
      exact ⟨hc, hcnt, rfl⟩
    · simp [unregisterCallback, hc, hcnt] at h
  · simp [unregisterCallback, hc] at h

lemma step_preserves_frequency (s : HandlerState) (op : Op) :
    (step s op).frequency = s.frequency := by
  cases op with
  | registerThreadOp => rfl
  | registerCallbackOp cb cb_arg => rfl
  | unregisterCallbackOp t =>
      simp only [step]
      cases hu : unregisterCallback s t with
      | ok s' => rw [(unregisterCallback_ok_elim hu).2.2]
      | fatal msg sFinal => rw [unregisterCallback_fatal_state hu]
  | resetOp => rfl
  | getStateOp => rfl
  | signalOp ticks => rfl

lemma callbacks_empty_run {s : HandlerState} (h : s.callbacks = [])
    {ops : List Op}
    (hops : ∀ cb cb_arg : Nat, Op.registerCallbackOp cb cb_arg ∉ ops) :
    (run s ops).callbacks = [] := by
  induction ops generalizing s with
  | nil => exact h
  | cons op ops ih =>
      have hstep : (step s op).callbacks = [] := by
        cases op with
        | registerThreadOp => exact h
        | registerCallbackOp cb cb_arg =>
            exact absurd (List.mem_cons_self _ _) (hops cb cb_arg)
        | unregisterCallbackOp t =>
            simp only [step]
            cases hu : unregisterCallback s t with
            | ok s' =>
                have hc := (unregisterCallback_ok_elim hu).1
                rw [h] at hc
                simp [containsTokenId] at hc
            | fatal msg sFinal =>
                rw [unregisterCallback_fatal_state hu]
                exact h
        | resetOp => rfl
        | getStateOp => exact h
        | signalOp ticks => exact h
      exact ih hstep (fun cb cb_arg hm => hops cb cb_arg (List.mem_cons_of_mem _ hm))

/-- Claim C1: for every sequence of public operations, the callback count
reported by `GetState` equals the number of entries in the callback registry
(the number of currently live tokens); `RegisterCallback` inserts one entry
and increments the count, a successful `UnregisterCallback` removes one entry
and decrements the count, and `Reset` empties the registry and sets the count
to 0. -/
theorem claim_C1 :
    (∀ (env : Option String) (ops : List Op),
      (getState (run (initState env) ops)).2.callback_count =
        ((run (initState env) ops).callbacks.length : Int)) ∧
    (∀ (s : HandlerState) (cb cb_arg : Nat),
      (registerCallback s cb cb_arg).1.callbacks.length = s.callbacks.length + 1 ∧
      (registerCallback s cb cb_arg).1.callback_count = s.callback_count + 1) ∧
    (∀ (s : HandlerState) (t : ProfileHandlerToken) (s' : HandlerState),
      unregisterCallback s t = .ok s' →
      s'.callbacks.length + 1 = s.callbacks.length ∧
      s'.callback_count = s.callback_count - 1) ∧
    (∀ s : HandlerState,
      (reset s).callbacks = [] ∧ (reset s).callback_count = 0) := by
  refine ⟨?_, ?_, ?_, fun s => ⟨rfl, rfl⟩⟩
  · intro env ops
    exact (wf_run_init env ops).1
  · intro s cb cb_arg
    rw [registerCallback_fst]
    exact ⟨by simp, rfl⟩
  · intro s t s' hok
    obtain ⟨hc, hcnt, rfl⟩ := unregisterCallback_ok_elim hok
    exact ⟨removeTokenById_length hc, rfl⟩

/-- Witness for claim C1: on the concrete state `exShared1` with its one
live token, `UnregisterCallback` succeeds and removes one entry while
decrementing the count. -/
theorem claim_C1_witness :
    unregisterCallback exShared1 exToken1 = .ok exShared0 ∧
    (exShared0.callbacks.length + 1 = exShared1.callbacks.length ∧
     exShared0.callback_count = exShared1.callback_count - 1) :=
  ⟨by decide, claim_C1.2.2.1 exShared1 exToken1 exShared0 (by decide)⟩

/-- Claim C2: `RegisterThread` on the timer event source implements exactly
the detection state machine: in `TIMERS_UNTOUCHED` it starts the timer and
moves to `TIMERS_ONE_SET`; in `TIMERS_ONE_SET`, if the timer is observed
running it moves to `TIMERS_SHARED` and stops the timer iff the current
callback count is 0, otherwise it moves to `TIMERS_SEPARATE` and starts the
caller's own timer; in `TIMERS_SHARED` it does nothing; in `TIMERS_SEPARATE`
it starts the caller's timer; and once the state is `TIMERS_SHARED` or
`TIMERS_SEPARATE`, no public operation other than an explicit `Reset` ever
changes it. -/
theorem claim_C2 :
    (∀ (obs : Bool) (cnt : Int),
      esRegisterThread .TIMERS_UNTOUCHED obs cnt = (.TIMERS_ONE_SET, [.start])) ∧
    (∀ cnt : Int,
      esRegisterThread .TIMERS_ONE_SET true cnt =
        (.TIMERS_SHARED, if cnt = 0 then [.stop] else [])) ∧
    (∀ cnt : Int,
      esRegisterThread .TIMERS_ONE_SET false cnt = (.TIMERS_SEPARATE, [.start])) ∧
    (∀ (obs : Bool) (cnt : Int),
      esRegisterThread .TIMERS_SHARED obs cnt = (.TIMERS_SHARED, [])) ∧
    (∀ (obs : Bool) (cnt : Int),
      esRegisterThread .TIMERS_SEPARATE obs cnt = (.TIMERS_SEPARATE, [.start])) ∧
    (∀ (s : HandlerState) (op : Op),
      (s.timer_sharing = .TIMERS_SHARED ∨ s.timer_sharing = .TIMERS_SEPARATE) →
      op ≠ .resetOp → (step s op).timer_sharing = s.timer_sharing) := by
  refine ⟨fun obs cnt => rfl, fun cnt => rfl, fun cnt => rfl,
    fun obs cnt => rfl, fun obs cnt => rfl, ?_⟩
  intro s op hs hop
  cases op with
  | registerThreadOp =>
      rcases hs with hs | hs <;>
        simp [step, registerThread, esRegisterThread, hs]
  | registerCallbackOp cb cb_arg => rfl
  | unregisterCallbackOp t =>
      simp only [step]
      cases hu : unregisterCallback s t with
      | ok s' => rw [(unregisterCallback_ok_elim hu).2.2]
      | fatal msg sFinal => rw [unregisterCallback_fatal_state hu]
  | resetOp => exact absurd rfl hop
  | getStateOp => rfl
  | signalOp ticks => rfl

/-- Witness for claim C2: on the concrete shared-state `exShared1`, a
`GetState` operation (an operation other than `Reset`) leaves the sharing
state unchanged. -/
theorem claim_C2_witness :
    (exShared1.timer_sharing = TimerSharing.TIMERS_SHARED ∨
      exShared1.timer_sharing = TimerSharing.TIMERS_SEPARATE) ∧
    (Op.getStateOp ≠ Op.resetOp) ∧
    (step exShared1 Op.getStateOp).timer_sharing = exShared1.timer_sharing :=
  ⟨Or.inl (by decide), by decide,
   claim_C2.2.2.2.2.2 exShared1 Op.getStateOp (Or.inl (by decide)) (by decide)⟩

/-- Claim C3: once the sharing state is `TIMERS_SHARED`, the shared timer is
running iff `callback_count > 0` — this holds after every sequence of public
operations from the initial state; moreover `RegisteredCallback` starts the
timer exactly when the new count is 1, `UnregisteredCallback` stops it
exactly when the new count reaches 0, and `Reset` stops a shared timer. -/
theorem claim_C3 :
    (∀ (env : Option String) (ops : List Op),
      (run (initState env) ops).timer_sharing = .TIMERS_SHARED →
        ((run (initState env) ops).timer = true ↔
          0 < (run (initState env) ops).callback_count)) ∧
    (∀ n : Int,
      esRegisteredCallback .TIMERS_SHARED n = if n = 1 then [.start] else []) ∧
    (∀ n : Int,
      esUnregisteredCallback .TIMERS_SHARED n = if n = 0 then [.stop] else []) ∧
    (esReset .TIMERS_SHARED).2 = [.stop] := by
  refine ⟨fun env ops => (wf_run_init env ops).2.2.2, ?_, ?_, rfl⟩
  · intro n
    by_cases h : n = 1 <;> simp [esRegisteredCallback, h]
  · intro n
    by_cases h : n = 0 <;> simp [esUnregisteredCallback, h]

/-- Witness for claim C3: after two thread registrations (reaching
`TIMERS_SHARED`) and one callback registration, the shared timer is running
iff the callback count is positive. -/
theorem claim_C3_witness :
    (run (initState none) exDetectOps).timer_sharing =
      TimerSharing.TIMERS_SHARED ∧
    ((run (initState none) exDetectOps).timer = true ↔
      0 < (run (initState none) exDetectOps).callback_count) :=
  ⟨by decide, claim_C3.1 none exDetectOps (by decide)⟩

/-- Claim C4: for every signal delivery, the dispatcher increments the
interrupt counter by exactly 1 (even when the tick count is 0), invokes every
registered callback exactly once, in registration (FIFO) order, passing the
tick count, iff the tick count is greater than 0, and never adds or removes
registry entries (`RegisterCallback` appends at the tail, so registry order
is registration order). -/
theorem claim_C4 :
    ∀ (s : HandlerState) (ticks : Nat),
      (signalHandler s ticks).1.interrupts = s.interrupts + 1 ∧
      (signalHandler s ticks).1.callbacks = s.callbacks ∧
      (signalHandler s ticks).2 =
        (if 0 < ticks then
          s.callbacks.map (fun t =>
            { callback := t.callback, ticks := ticks,
              callback_arg := t.callback_arg })
        else []) ∧
      ∀ (cb cb_arg : Nat),
        (registerCallback s cb cb_arg).1.callbacks =
          s.callbacks ++ [(registerCallback s cb cb_arg).2] := by
  intro s ticks
  refine ⟨rfl, rfl, ?_, fun cb cb_arg => rfl⟩
  by_cases h : ticks = 0
  · simp [signalHandler, h]
  · simp [signalHandler, h, Nat.pos_of_ne_zero h]

/-- Claim C5: for every registry state (with its bookkeeping invariants:
count equals length, distinct token pointers) and every token currently in
the registry, `UnregisterCallback` removes exactly the one matching entry,
leaves every other entry in its original relative order, decrements
`callback_count` by 1, and re-enables signal delivery iff the remaining
count is positive. -/
theorem claim_C5 :
    ∀ (s : HandlerState) (t : ProfileHandlerToken),
      s.callback_count = (s.callbacks.length : Int) →
      (s.callbacks.map ProfileHandlerToken.id).Nodup →
      t ∈ s.callbacks →
      ∃ s', unregisterCallback s t = .ok s' ∧
        s'.callbacks = s.callbacks.filter (fun x => x.id ≠ t.id) ∧
        s'.callbacks.length + 1 = s.callbacks.length ∧
        s'.callback_count = s.callback_count - 1 ∧
        s'.handlerEnabled = decide (0 < s'.callback_count) := by
  intro s t h1 h2 hmem
  have hc : containsTokenId s.callbacks t.id = true :=
    containsTokenId_iff.mpr ⟨t, hmem, rfl⟩
  have hpos : 0 < s.callbacks.length :=
    List.length_pos.mpr (by intro hnil; rw [hnil] at hmem; simp at hmem)
  have hcnt : 0 < s.callback_count := by omega
  refine ⟨_, unregisterCallback_found hc hcnt, ?_, ?_, rfl, rfl⟩
  · exact removeTokenById_eq_filter h2
  · exact removeTokenById_length hc

/-- Witness for claim C5: unregistering the one live token of `exShared1`
removes exactly that entry. -/
theorem claim_C5_witness :
    (exShared1.callback_count = (exShared1.callbacks.length : Int) ∧
     (exShared1.callbacks.map ProfileHandlerToken.id).Nodup ∧
     exToken1 ∈ exShared1.callbacks) ∧
    (∃ s', unregisterCallback exShared1 exToken1 = .ok s' ∧
      s'.callbacks = exShared1.callbacks.filter (fun x => x.id ≠ exToken1.id) ∧
      s'.callbacks.length + 1 = exShared1.callbacks.length ∧
      s'.callback_count = exShared1.callback_count - 1 ∧
      s'.handlerEnabled = decide (0 < s'.callback_count)) :=
  ⟨⟨by decide, by decide, by decide⟩,
   claim_C5 exShared1 exToken1 (by decide) (by decide) (by decide)⟩

/-- Claim C6: for every token value not currently present in the registry,
`UnregisterCallback` is fatal (`RAW_LOG(FATAL, "Invalid token")`), and the
state at termination is the unmutated input state: no registry entry was
removed and the callback count is unchanged. -/
theorem claim_C6 :
    ∀ (s : HandlerState) (token : ProfileHandlerToken),
      (∀ x ∈ s.callbacks, x.id ≠ token.id) →
      unregisterCallback s token = .fatal "Invalid token" s := by
  intro s token h
  have hc : ¬ containsTokenId s.callbacks token.id = true := by
    intro hcon
    rcases containsTokenId_iff.mp hcon with ⟨x, hx, hxi⟩
    exact h x hx hxi
  simp [unregisterCallback, hc]

/-- Witness for claim C6: unregistering the unknown token `exTokenMissing`
from `exShared1` is fatal and leaves the state untouched. -/
theorem claim_C6_witness :
    (∀ x ∈ exShared1.callbacks, x.id ≠ exTokenMissing.id) ∧
    unregisterCallback exShared1 exTokenMissing =
      .fatal "Invalid token" exShared1 :=
  ⟨by decide, claim_C6 exShared1 exTokenMissing (by decide)⟩

/-- Counterexample to claim C7 as stated: the override string "3000000000"
is a parseable positive integer with value 3000000000, so the claim requires
effective frequency `min 3000000000 4000 = 4000`; but the value's 32-bit
store reads as a negative `int32`, the `frequency_ > 0` test fails, and the
code yields the default 100. -/
theorem claim_C7_counterexample :
    scanFrequency? "3000000000" = some 3000000000 ∧
    effectiveFrequency (some "3000000000") = 100 ∧
    effectiveFrequency (some "3000000000") ≠ min 3000000000 4000 :=
  ⟨by decide, by decide, by decide⟩

/-- Claim C7 (amended): the effective frequency computed at construction
from the frequency-override variable satisfies: a parseable value whose
stored 32-bit pattern `w` reads as a positive `int32` yields `min w 4000`
(so 10000 yields 4000, and 50 — also " 50" and "+50", which `%u` accepts —
yields 50), while an absent, non-numeric, zero, or otherwise malformed
value, or one whose stored `int32` is not positive (such as digit strings
with value in `[2^31, 2^32)` like "3000000000"), yields the default 100;
the result is always in `[1, 4000]`, and no public operation ever changes
the frequency afterwards. -/
theorem claim_C7 :
    (∀ (fr : String) (w : Nat), scanFrequency? fr = some w → 0 < toInt32 w →
      effectiveFrequency (some fr) = min w 4000) ∧
    (∀ (fr : String) (w : Nat), scanFrequency? fr = some w → ¬ 0 < toInt32 w →
      effectiveFrequency (some fr) = 100) ∧
    (∀ fr : String, scanFrequency? fr = none →
      effectiveFrequency (some fr) = 100) ∧
    effectiveFrequency none = 100 ∧
    effectiveFrequency (some "10000") = 4000 ∧
    effectiveFrequency (some "50") = 50 ∧
    effectiveFrequency (some " 50") = 50 ∧
    effectiveFrequency (some "+50") = 50 ∧
    effectiveFrequency (some "0") = 100 ∧
    effectiveFrequency (some "3000000000") = 100 ∧
    (∀ env : Option String,
      1 ≤ effectiveFrequency env ∧ effectiveFrequency env ≤ 4000) ∧
    (∀ (s : HandlerState) (op : Op), (step s op).frequency = s.frequency) := by
  refine ⟨?_, ?_, ?_, rfl, by decide, by decide, by decide, by decide,
    by decide, by decide, ?_, step_preserves_frequency⟩
  · intro fr w hw hpos
    simp [effectiveFrequency, hw, hpos]
  · intro fr w hw hpos
    simp [effectiveFrequency, hw, hpos]
  · intro fr hw
    simp [effectiveFrequency, hw]
  · intro env
    cases env with
    | none => exact ⟨by decide, by decide⟩
    | some fr =>
        cases hv : scanFrequency? fr with
        | some w =>
            by_cases hpos : 0 < toInt32 w
            · have h : effectiveFrequency (some fr) = min w 4000 := by
                simp [effectiveFrequency, hv, hpos]
              have hw1 : 1 ≤ w := by
                by_contra hlt
                have hw0 : w = 0 := by omega
                rw [hw0] at hpos
                simp [toInt32] at hpos
              rw [h]
              omega
            · have h : effectiveFrequency (some fr) = 100 := by
                simp [effectiveFrequency, hv, hpos]
              rw [h]
              omega
        | none =>
            have h : effectiveFrequency (some fr) = 100 := by
              simp [effectiveFrequency, hv]
            rw [h]
            omega

/-- Witness for claim C7 (amended): the override string " 50" — leading
whitespace, which `%u` skips — parses to stored value 50, whose `int32`
reading is positive, and yields effective frequency `min 50 4000 = 50`. -/
theorem claim_C7_witness :
    (scanFrequency? " 50" = some 50 ∧ 0 < toInt32 50) ∧
    effectiveFrequency (some " 50") = min 50 4000 :=
  ⟨⟨by decide, by decide⟩, claim_C7.1 " 50" 50 (by decide) (by decide)⟩

/-- Claim C8: `Reset` empties the registry, sets the callback count to 0,
reverts the event source to `TIMERS_UNTOUCHED` (stopping a shared timer),
and leaves the interrupt counter and configured frequency unchanged;
afterwards no callback fires under any operation sequence that contains no
new registration. -/
theorem claim_C8 :
    ∀ s : HandlerState,
      (reset s).callbacks = [] ∧
      (reset s).callback_count = 0 ∧
      (reset s).timer_sharing = .TIMERS_UNTOUCHED ∧
      (s.timer_sharing = .TIMERS_SHARED → (reset s).timer = false) ∧
      (reset s).interrupts = s.interrupts ∧
      (reset s).frequency = s.frequency ∧
      (∀ ops : List Op,
        (∀ cb cb_arg : Nat, Op.registerCallbackOp cb cb_arg ∉ ops) →
        ∀ ticks : Nat, (signalHandler (run (reset s) ops) ticks).2 = []) := by
  intro s
  refine ⟨rfl, rfl, rfl, ?_, rfl, rfl, ?_⟩
  · intro hsh
    simp [reset, esReset, hsh, applyActions, applyAction]
  · intro ops hops ticks
    have h := callbacks_empty_run (s := reset s) rfl hops
    simp [signalHandler, h]

/-- Witness for claim C8: resetting `exShared1` empties the registry, stops
the shared timer, keeps the interrupt count, and a later signal delivery
after registration-free operations invokes nothing. -/
theorem claim_C8_witness :
    (reset exShared1).callbacks = [] ∧
    (reset exShared1).callback_count = 0 ∧
    (exShared1.timer_sharing = TimerSharing.TIMERS_SHARED ∧
      (reset exShared1).timer = false) ∧
    (reset exShared1).interrupts = exShared1.interrupts ∧
    ((∀ cb cb_arg : Nat, Op.registerCallbackOp cb cb_arg ∉ exNoRegOps) ∧
      (signalHandler (run (reset exShared1) exNoRegOps) 1).2 = []) :=
  ⟨(claim_C8 exShared1).1, (claim_C8 exShared1).2.1,
   ⟨by decide, (claim_C8 exShared1).2.2.2.1 (by decide)⟩,
   (claim_C8 exShared1).2.2.2.2.1,
   ⟨fun cb cb_arg => by simp [exNoRegOps],
    (claim_C8 exShared1).2.2.2.2.2.2 exNoRegOps
      (fun cb cb_arg => by simp [exNoRegOps]) 1⟩⟩

/-- Claim C9: for every configured frequency in `[1, 4000]`, starting the
timer sets both the initial delay (`it_value`) and the repeat interval
(`it_interval`) to `1000000 / f` microseconds (integer division, seconds
part zero), and stopping the timer sets both to zero. -/
theorem claim_C9 :
    ∀ f : Nat, 1 ≤ f → f ≤ 4000 →
      (startTimerValue f).it_value_sec = 0 ∧
      (startTimerValue f).it_value_usec = 1000000 / f ∧
      (startTimerValue f).it_interval_sec = 0 ∧
      (startTimerValue f).it_interval_usec = 1000000 / f ∧
      stopTimerValue.it_value_sec = 0 ∧
      stopTimerValue.it_value_usec = 0 ∧
      stopTimerValue.it_interval_sec = 0 ∧
      stopTimerValue.it_interval_usec = 0 :=
  fun _ _ _ => ⟨rfl, rfl, rfl, rfl, rfl, rfl, rfl, rfl⟩

/-- Witness for claim C9: at the default frequency 100, the timer period is
`1000000 / 100` microseconds in both fields. -/
theorem claim_C9_witness :
    (1 ≤ 100 ∧ 100 ≤ 4000) ∧
    ((startTimerValue 100).it_value_sec = 0 ∧
     (startTimerValue 100).it_value_usec = 1000000 / 100 ∧
     (startTimerValue 100).it_interval_sec = 0 ∧
     (startTimerValue 100).it_interval_usec = 1000000 / 100 ∧
     stopTimerValue.it_value_sec = 0 ∧
     stopTimerValue.it_value_usec = 0 ∧
     stopTimerValue.it_interval_sec = 0 ∧
     stopTimerValue.it_interval_usec = 0) :=
  ⟨⟨by decide, by decide⟩, claim_C9 100 (by decide) (by decide)⟩

/-- Claim C10: whenever the sharing state is anything other than
`TIMERS_SHARED`, the `RegisteredCallback` and `UnregisteredCallback` hooks
emit no timer start/stop for any callback count; in particular, while
detection is in `TIMERS_ONE_SET`, registering a callback does not change the
timer and unregistering the last callback leaves the running timer
running. -/
theorem claim_C10 :
    (∀ sharing : TimerSharing, sharing ≠ .TIMERS_SHARED →
      ∀ n : Int, esRegisteredCallback sharing n = [] ∧
        esUnregisteredCallback sharing n = []) ∧
    (∀ (s : HandlerState) (cb cb_arg : Nat),
      s.timer_sharing ≠ .TIMERS_SHARED →
      (registerCallback s cb cb_arg).1.timer = s.timer) ∧
    (∀ (s : HandlerState) (t : ProfileHandlerToken) (s' : HandlerState),
      s.timer_sharing ≠ .TIMERS_SHARED → unregisterCallback s t = .ok s' →
      s'.timer = s.timer) := by
  refine ⟨?_, ?_, ?_⟩
  · intro sharing h n
    exact ⟨by simp [esRegisteredCallback, h], by simp [esUnregisteredCallback, h]⟩
  · intro s cb cb_arg h
    rw [registerCallback_fst]
    show applyActions s.timer
      (esRegisteredCallback s.timer_sharing (s.callback_count + 1)) = s.timer
    simp [esRegisteredCallback, h, applyActions]
  · intro s t s' h hok
    obtain ⟨hc, hcnt, rfl⟩ := unregisterCallback_ok_elim hok
    show applyActions s.timer
      (esUnregisteredCallback s.timer_sharing (s.callback_count - 1)) = s.timer
    simp [esUnregisteredCallback, h, applyActions]

/-- Witness for claim C10: in the `TIMERS_ONE_SET` state `exOneSet1`,
unregistering the last callback leaves the timer that the first
`RegisterThread` started still running. -/
theorem claim_C10_witness :
    (exOneSet1.timer_sharing ≠ TimerSharing.TIMERS_SHARED ∧
      unregisterCallback exOneSet1 exToken1 = .ok exOneSet0) ∧
    exOneSet0.timer = exOneSet1.timer :=
  ⟨⟨by decide, by decide⟩,
   claim_C10.2.2 exOneSet1 exToken1 exOneSet0 (by decide) (by decide)⟩

end ProfileHandlerModel
